import Mathlib

/-!
Shallow embedding of the OpenClaw plugin hot-reload subsystem
(src/plugins/reloader.ts) together with spec-level models of its
collaborators (discovery, loader, runtime singleton, hook runner and
command registry, which live outside the given sources).

The repository code that is embedded directly:
  * `clearPluginModuleCache` / `normalizeSource` — the Module Cache Buster;
  * `reloadPlugins` — the Reload Orchestrator;
  * `reloadOpenClawPlugins` — the thin source-path reload variant.

Collaborators are modelled from the spec as functions over an explicit
`World` state, with an `Env` record supplying their observable behaviour
(discovery results, load outcome, canonical path resolution) and a fault
injection point that lets any phase throw, which is how "any error thrown
in steps 2..8" is quantified. Registry reference identity is modelled by
an allocation counter (`Registry.ref` / `World.freshCounter`), and the
phase structure of a reload is observable through an appended event log.
-/

namespace OpenClawReload

/-- File-system paths are modelled as strings. -/
abbrev Path := String

/-- Status of one plugin inside a Registry (spec section 3: Plugin). -/
inductive PluginStatus
  | loaded
  | error
  | disabled
deriving DecidableEq, Repr

/-- Modelled from the spec: one loaded (or failed) plugin instance; the
`source` field is the absolute source file path, "used as the
cache-busting key" (spec section 3). -/
structure Plugin where
  id : String
  source : Path
  status : PluginStatus
deriving DecidableEq, Repr

/-- Modelled from the spec: an immutable Registry snapshot. The `ref`
field models JavaScript reference identity: each fresh load allocates the
next value of `World.freshCounter`, so two registries produced by
different load passes have different `ref`. -/
structure Registry where
  ref : Nat
  plugins : List Plugin
  hooks : List String
deriving DecidableEq, Repr

/-- Modelled from the spec: a discovered candidate plugin root directory
plus its manifest path (spec section 3: PluginCandidate). -/
structure PluginCandidate where
  rootDir : Path
  manifestPath : Path
deriving DecidableEq, Repr

/-- Opaque configuration object; the orchestrator does not interpret it
(spec section 6), so it is a tagged token. -/
structure OpenClawConfig where
  tag : Nat
deriving DecidableEq, Repr

/-- Opaque injected logger collaborator (spec section 6), a tagged token. -/
structure PluginLogger where
  tag : Nat
deriving DecidableEq, Repr

/-- Opaque mapping of host-provided core gateway handlers, a tagged token. -/
structure GatewayHandlers where
  tag : Nat
deriving DecidableEq, Repr

/-- The parameters a call to the loader receives, as recorded in the
event log: configuration, workspace directory, logger, core gateway
handlers and the `cache` flag. -/
structure LoadParams where
  config : OpenClawConfig
  workspaceDir : Option Path
  logger : Option PluginLogger
  coreGatewayHandlers : Option GatewayHandlers
  cache : Bool
deriving DecidableEq, Repr

/-- The phases of a reload at which an injected fault may throw. -/
inductive ReloadStep
  | discovery
  | cacheClear
  | commandClear
  | hookReset
  | load
deriving DecidableEq, Repr

/-- Observable events appended by the (modelled) collaborators, used to
state phase ordering and publication counting. -/
inductive Event
  | discovered (workspaceDir : Path) (rootDirs : List Path)
  | clearedCaches (pluginSourcePaths : List Path) (purged : Nat)
  | clearedModuleCache (sources : List Path) (purged : Nat)
  | clearedLoaderCache
  | clearedCommands
  | resetHookRunner
  | loaded (params : LoadParams) (ref : Nat)
  | published (ref : Nat)
deriving DecidableEq, Repr

/-- The process-wide mutable state the subsystem touches: the Active
Registry Singleton, the host runtime's module cache (keys paired with the
identity of the evaluated module object), the loader-level registry
cache, the Command Registry, the Hook Runner readiness flag, the registry
allocation counter and the event log. -/
structure World where
  activeRegistry : Option Registry
  moduleCache : List (Path × Nat)
  loaderCache : Option Registry
  commands : List String
  hookRunnerReady : Bool
  freshCounter : Nat
  events : List Event
deriving DecidableEq, Repr

/-- The environment a reload runs in: `norm` models `path.resolve`
(node:path, external to the sources), `discover` models the Discovery
component's answer per workspace directory (total: spec section 7 says
discovery recovers errors by returning an empty or partial list),
`loadPlugins`/`loadHooks` are the outcome a fresh load pass would
produce, `fail` injects a thrown error at one phase, and
`tStart`/`tEnd` are the `performance.now()` readings at entry and exit
(in rounded milliseconds). -/
structure Env where
  norm : Path → Path
  discover : Path → List PluginCandidate
  loadPlugins : List Plugin
  loadHooks : List String
  fail : Option (ReloadStep × String)
  tStart : Int
  tEnd : Int

/-- The message thrown at step `s`, if the injected fault is at `s`. -/
def faultAt (env : Env) (s : ReloadStep) : Option String :=
  match env.fail with
  | none => none
  | some (s', m) => if s' = s then some m else none

/-- Embeds `normalizeSource` from src/plugins/reloader.ts: it is
`path.resolve(source)`, an external node:path function, so the canonical
form is supplied by `Env.norm`. -/
def normalizeSource (norm : Path → Path) (source : Path) : Path :=
  norm source

/-- Embeds `clearPluginModuleCache` from src/plugins/reloader.ts: resolve
every requested source, walk the module-cache keys, delete each entry
whose resolved key equals some resolved source, and return how many were
deleted together with the remaining cache. The JavaScript loop deletes
matching entries in place while counting them, which is the count of
matching entries and the sublist of non-matching ones. -/
def clearPluginModuleCache (norm : Path → Path) (sources : List Path)
    (cache : List (Path × Nat)) : Nat × List (Path × Nat) :=
  let resolved := sources.map (normalizeSource norm)
  (cache.countP (fun e => resolved.contains (normalizeSource norm e.1)),
   cache.filter (fun e => !resolved.contains (normalizeSource norm e.1)))

/-- Modelled from the spec: `getActivePluginRegistry` (runtime.js is not
in the sources) reads the Active Registry Singleton. -/
def getActivePluginRegistry (w : World) : Option Registry :=
  w.activeRegistry

/-- One get-or-load on the module cache: a resident key keeps its module
object, a missing key is evaluated and inserted. -/
def cacheLoadOne (key : Path) (cache : List (Path × Nat)) : List (Path × Nat) :=
  if cache.any (fun e => e.1 == key) then cache else cache ++ [(key, 0)]

/-- Get-or-load of every source file a load pass evaluates, in order. -/
def cacheLoadAll (norm : Path → Path) (sources : List Path)
    (cache : List (Path × Nat)) : List (Path × Nat) :=
  sources.foldl (fun c s => cacheLoadOne (norm s) c) cache

/-- Modelled from the spec: `loadOpenClawPlugins` (loader.js is not in
the sources). On the `cache=false` path used by both reload entry points
it performs a fresh pass: allocates a new Registry (fresh `ref`),
evaluates each plugin source through the module cache (get-or-load),
publishes the new Registry to the Active Registry Singleton as one
atomic update (spec section 4.7 step 8: "via the loader's own internal
update"), and records the call parameters. A thrown load error leaves
the world untouched, matching the spec's all-or-nothing publication. -/
def loadOpenClawPlugins (env : Env) (p : LoadParams) (w : World) :
    Except String (Registry × World) :=
  match faultAt env ReloadStep.load with
  | some m => Except.error m
  | none =>
    let reg : Registry :=
      { ref := w.freshCounter, plugins := env.loadPlugins, hooks := env.loadHooks }
    Except.ok (reg,
      { w with
          freshCounter := w.freshCounter + 1
          moduleCache := cacheLoadAll env.norm (env.loadPlugins.map (fun q => q.source)) w.moduleCache
          activeRegistry := some reg
          events := w.events ++ [Event.loaded p w.freshCounter, Event.published w.freshCounter] })

/-- Modelled from the spec: `clearPluginCaches` (loader.js is not in the
sources) invalidates the loader-level cache entry and forwards the given
source paths to the Module Cache Buster, coupling cache clearing with
module-cache busting in one orchestrated step (spec sections 4.2 and
4.7 step 3). -/
def clearPluginCaches (env : Env) (pluginSourcePaths : List Path) (w : World) :
    Except String World :=
  match faultAt env ReloadStep.cacheClear with
  | some m => Except.error m
  | none =>
    let r := clearPluginModuleCache env.norm pluginSourcePaths w.moduleCache
    Except.ok
      { w with
          loaderCache := none
          moduleCache := r.2
          events := w.events ++ [Event.clearedCaches pluginSourcePaths r.1] }

/-- Modelled from the spec: `clearPluginLoaderCache` (loader.js is not in
the sources) invalidates only the loader-level cache entry. -/
def clearPluginLoaderCache (env : Env) (w : World) : Except String World :=
  match faultAt env ReloadStep.cacheClear with
  | some m => Except.error m
  | none =>
    Except.ok { w with loaderCache := none, events := w.events ++ [Event.clearedLoaderCache] }

/-- Modelled from the spec: `clearPluginCommands` (commands.js is not in
the sources) removes all plugin-registered commands; idempotent (spec
section 4.5). -/
def clearPluginCommands (env : Env) (w : World) : Except String World :=
  match faultAt env ReloadStep.commandClear with
  | some m => Except.error m
  | none =>
    Except.ok { w with commands := [], events := w.events ++ [Event.clearedCommands] }

/-- Modelled from the spec: `resetGlobalHookRunner` (hook-runner-global.js
is not in the sources) drops derived dispatch state, returning the runner
to an uninitialized state (spec section 4.4). -/
def resetGlobalHookRunner (env : Env) (w : World) : Except String World :=
  match faultAt env ReloadStep.hookReset with
  | some m => Except.error m
  | none =>
    Except.ok { w with hookRunnerReady := false, events := w.events ++ [Event.resetHookRunner] }

/-- Modelled from the spec: `discoverOpenClawPlugins` (discovery.js is not
in the sources) enumerates candidate plugin root directories for a
workspace; tolerant of nonexistent workspaces (the `Env.discover`
function is total, returning an empty sequence for such inputs). -/
def discoverOpenClawPlugins (env : Env) (workspaceDir : Path) (w : World) :
    Except String (List PluginCandidate × World) :=
  match faultAt env ReloadStep.discovery with
  | some m => Except.error m
  | none =>
    let cands := env.discover workspaceDir
    Except.ok (cands,
      { w with events := w.events ++ [Event.discovered workspaceDir (cands.map (fun c => c.rootDir))] })

/-- The fallback subsystem-scoped logger `reloadPlugins` builds when no
logger is injected (src/plugins/reloader.ts lines 105-110). -/
def subsystemLogger : PluginLogger :=
  { tag := 0 }

/-- Options of `reloadPlugins` (src/plugins/reloader.ts ReloadPluginsOptions). -/
structure ReloadPluginsOptions where
  config : OpenClawConfig
  workspaceDir : Path
  coreGatewayHandlers : Option GatewayHandlers
  logger : Option PluginLogger
deriving DecidableEq, Repr

/-- Result of `reloadPlugins` (src/plugins/reloader.ts ReloadResult). -/
structure ReloadResult where
  ok : Bool
  registry : Option Registry
  pluginCount : Option Nat
  hookCount : Option Nat
  error : Option String
  durationMs : Int
deriving DecidableEq, Repr

/-- The failure result built in the catch block of `reloadPlugins`
(src/plugins/reloader.ts lines 147-152): `ok:false`, the thrown message,
and the elapsed duration. -/
def reloadFailure (env : Env) (msg : String) : ReloadResult :=
  { ok := false, registry := none, pluginCount := none, hookCount := none,
    error := some msg, durationMs := env.tEnd - env.tStart }

/-- Embeds `reloadPlugins` from src/plugins/reloader.ts (lines 103-153):
discover candidates over the workspace, clear all caches (loader cache
with the candidate root paths, command registry, hook runner), then load
fresh with `cache:false` and the supplied configuration, workspace,
resolved logger and core gateway handlers; count loaded plugins and
hooks; any thrown error is caught and turned into a failure result,
leaving the world as the already-completed steps left it. -/
def reloadPlugins (env : Env) (options : ReloadPluginsOptions) (w : World) :
    ReloadResult × World :=
  match discoverOpenClawPlugins env options.workspaceDir w with
  | Except.error msg => (reloadFailure env msg, w)
  | Except.ok (candidates, w1) =>
    let sourcePaths := candidates.map (fun c => c.rootDir)
    match clearPluginCaches env sourcePaths w1 with
    | Except.error msg => (reloadFailure env msg, w1)
    | Except.ok w2 =>
      match clearPluginCommands env w2 with
      | Except.error msg => (reloadFailure env msg, w2)
      | Except.ok w3 =>
        match resetGlobalHookRunner env w3 with
        | Except.error msg => (reloadFailure env msg, w3)
        | Except.ok w4 =>
          match loadOpenClawPlugins env
              { config := options.config
                workspaceDir := some options.workspaceDir
                logger := some (options.logger.getD subsystemLogger)
                coreGatewayHandlers := options.coreGatewayHandlers
                cache := false } w4 with
          | Except.error msg => (reloadFailure env msg, w4)
          | Except.ok (registry, w5) =>
            let pluginCount :=
              (registry.plugins.filter (fun p => p.status == PluginStatus.loaded)).length
            let hookCount := registry.hooks.length
            ({ ok := true, registry := some registry, pluginCount := some pluginCount,
               hookCount := some hookCount, error := none,
               durationMs := env.tEnd - env.tStart }, w5)

/-- Parameters of `reloadOpenClawPlugins` (src/plugins/reloader.ts lines 30-35). -/
structure ReloadOpenClawParams where
  config : OpenClawConfig
  workspaceDir : Option Path
  logger : Option PluginLogger
  coreGatewayHandlers : Option GatewayHandlers
deriving DecidableEq, Repr

/-- Embeds `reloadOpenClawPlugins` from src/plugins/reloader.ts (lines
30-55): read the Active Registry Singleton, purge the module cache for
the previous registry's plugin source files (an empty list when no
registry is active), clear the loader cache, then load fresh with
`cache:false`. There is no try/catch in this function, so a thrown error
propagates to the caller, which the `Except.error` result models. -/
def reloadOpenClawPlugins (env : Env) (params : ReloadOpenClawParams) (w : World) :
    Except String (Registry × World) :=
  let active := getActivePluginRegistry w
  let sources := (active.map (fun r => r.plugins.map (fun q => q.source))).getD []
  let pr := clearPluginModuleCache env.norm sources w.moduleCache
  let w1 : World :=
    { w with
        moduleCache := pr.2
        events := w.events ++ [Event.clearedModuleCache sources pr.1] }
  match clearPluginLoaderCache env w1 with
  | Except.error m => Except.error m
  | Except.ok w2 =>
    loadOpenClawPlugins env
      { config := params.config
        workspaceDir := params.workspaceDir
        logger := params.logger
        coreGatewayHandlers := params.coreGatewayHandlers
        cache := false } w2

/-- Whether an event is the atomic publication of a registry reference. -/
def isPublishEvent : Event → Bool
  | Event.published _ => true
  | _ => false

/-- Boolean well-formedness of a world: any registry held by the Active
Registry Singleton was allocated below the current counter. Every world
reachable from a fresh start through the modelled operations satisfies
this. -/
def wfActive (w : World) : Bool :=
  match w.activeRegistry with
  | none => true
  | some r => r.ref < w.freshCounter

/-- The registry a variant reload returned, when it did not throw. -/
def okRegistry (r : Except String (Registry × World)) : Option Registry :=
  match r with
  | Except.ok (reg, _) => some reg
  | Except.error _ => none

/-- The world a variant reload left behind, when it did not throw. -/
def okWorld (r : Except String (Registry × World)) : Option World :=
  match r with
  | Except.ok (_, w) => some w
  | Except.error _ => none

/-! ## Helper lemmas -/

/-- Splitting a list's length into the entries satisfying `p` and the rest. -/
theorem countP_add_length_filter_not {α : Type} (p : α → Bool) (l : List α) :
    l.countP p + (l.filter (fun a => !p a)).length = l.length := by
  induction l with
  | nil => simp
  | cons a t ih =>
    cases h : p a <;> simp [List.countP_cons, List.filter_cons, h] <;> omega

/-- Bool membership test on lists of strings agrees with membership. -/
theorem contains_eq_true_iff (l : List Path) (x : Path) :
    l.contains x = true ↔ x ∈ l := by
  simp [List.contains, List.elem_iff]

/-! ## C4: exact purge targeting of the Module Cache Buster -/

/-- C4 (amended): `clearPluginModuleCache` removes exactly the cache
entries whose canonically resolved key equals some canonically resolved
requested path and returns their number. Unconditionally: (i) an entry
survives iff it does not match; (ii) removed plus surviving counts
account for the whole cache; (iii) the operation is idempotent; (iv)
when no entry matches — purging paths absent from the cache — it
returns 0 and leaves the cache untouched. And (v) only under its own
side conditions — the requested paths have pairwise-distinct canonical
forms, the cache keys have pairwise-distinct canonical forms, and every
requested path matches some resident entry — purging N paths removes
exactly N entries and returns N. -/
theorem clearPluginModuleCache_purges_matching
    (norm : Path → Path) (sources : List Path) (cache : List (Path × Nat)) :
    (∀ e, e ∈ (clearPluginModuleCache norm sources cache).2 ↔
        e ∈ cache ∧ (sources.map norm).contains (norm e.1) = false) ∧
    (clearPluginModuleCache norm sources cache).1 +
        (clearPluginModuleCache norm sources cache).2.length = cache.length ∧
    clearPluginModuleCache norm sources (clearPluginModuleCache norm sources cache).2 =
        (0, (clearPluginModuleCache norm sources cache).2) ∧
    (cache.all (fun e => !(sources.map norm).contains (norm e.1)) = true →
        clearPluginModuleCache norm sources cache = (0, cache)) ∧
    ((sources.map norm).Nodup →
      (cache.map (fun e => norm e.1)).Nodup →
      sources.all (fun s => cache.any (fun e => norm e.1 == norm s)) = true →
      (clearPluginModuleCache norm sources cache).1 = sources.length) := by
  refine ⟨?_, ?_, ?_, ?_, ?_⟩
  · intro e
    show e ∈ cache.filter (fun e => !(sources.map norm).contains (norm e.1)) ↔ _
    rw [List.mem_filter]
    constructor
    · rintro ⟨h1, h2⟩
      have h2' : (!(sources.map norm).contains (norm e.1)) = true := h2
      rw [Bool.not_eq_true'] at h2'
      exact ⟨h1, h2'⟩
    · rintro ⟨h1, h2⟩
      refine ⟨h1, ?_⟩
      show (!(sources.map norm).contains (norm e.1)) = true
      rw [Bool.not_eq_true']
      exact h2
  · show cache.countP (fun e => (sources.map norm).contains (norm e.1)) +
        (cache.filter (fun e => !(sources.map norm).contains (norm e.1))).length =
        cache.length
    exact countP_add_length_filter_not
      (fun e : Path × Nat => (sources.map norm).contains (norm e.1)) cache
  · show ((cache.filter (fun e => !(sources.map norm).contains (norm e.1))).countP
        (fun e => (sources.map norm).contains (norm e.1)),
      (cache.filter (fun e => !(sources.map norm).contains (norm e.1))).filter
        (fun e => !(sources.map norm).contains (norm e.1))) =
      (0, cache.filter (fun e => !(sources.map norm).contains (norm e.1)))
    have hcount :
        ((cache.filter (fun e => !(sources.map norm).contains (norm e.1))).countP
          (fun e => (sources.map norm).contains (norm e.1))) = 0 := by
      rw [List.countP_eq_zero]
      intro a ha hcontra
      have h0 : (!(sources.map norm).contains (norm a.1)) = true :=
        (List.mem_filter.mp ha).2
      rw [Bool.not_eq_true'] at h0
      have h3 : ((sources.map norm).contains (norm a.1)) = true := hcontra
      rw [h0] at h3
      exact Bool.noConfusion h3
    have hfilter :
        ((cache.filter (fun e => !(sources.map norm).contains (norm e.1))).filter
          (fun e => !(sources.map norm).contains (norm e.1))) =
        cache.filter (fun e => !(sources.map norm).contains (norm e.1)) := by
      rw [List.filter_eq_self]
      intro a ha
      exact (List.mem_filter.mp ha).2
    exact Prod.ext hcount hfilter
  · intro habs
    show (cache.countP (fun e => (sources.map norm).contains (norm e.1)),
      cache.filter (fun e => !(sources.map norm).contains (norm e.1))) = (0, cache)
    have h1 : cache.countP (fun e => (sources.map norm).contains (norm e.1)) = 0 := by
      rw [List.countP_eq_zero]
      intro a ha hcontra
      have h0 : (!(sources.map norm).contains (norm a.1)) = true :=
        List.all_eq_true.mp habs a ha
      rw [Bool.not_eq_true'] at h0
      have h3 : ((sources.map norm).contains (norm a.1)) = true := hcontra
      rw [h0] at h3
      exact Bool.noConfusion h3
    have h2 : cache.filter (fun e => !(sources.map norm).contains (norm e.1)) = cache := by
      rw [List.filter_eq_self]
      intro a ha
      exact List.all_eq_true.mp habs a ha
    exact Prod.ext h1 h2
  · intro hnd hkey hpres
    show cache.countP (fun e => (sources.map norm).contains (norm e.1)) = sources.length
    have hsub : ((cache.filter
          (fun e => (sources.map norm).contains (norm e.1))).map (fun e => norm e.1)).Sublist
        (cache.map (fun e => norm e.1)) :=
      List.Sublist.map _ (List.filter_sublist cache)
    have hLnd : ((cache.filter
          (fun e => (sources.map norm).contains (norm e.1))).map (fun e => norm e.1)).Nodup :=
      List.Nodup.sublist hsub hkey
    have hmem : ∀ x, x ∈ (cache.filter
          (fun e => (sources.map norm).contains (norm e.1))).map (fun e => norm e.1) ↔
        x ∈ sources.map norm := by
      intro x
      constructor
      · intro hx
        obtain ⟨e, he, hfe⟩ := List.mem_map.mp hx
        have hpe : ((sources.map norm).contains (norm e.1)) = true :=
          (List.mem_filter.mp he).2
        rw [← hfe]
        exact (contains_eq_true_iff (sources.map norm) (norm e.1)).mp hpe
      · intro hx
        obtain ⟨s, hs, hns⟩ := List.mem_map.mp hx
        obtain ⟨e, he, hbeq⟩ := List.any_eq_true.mp (List.all_eq_true.mp hpres s hs)
        have heq : norm e.1 = norm s := beq_iff_eq.mp hbeq
        have hpe : ((sources.map norm).contains (norm e.1)) = true := by
          rw [heq, hns]
          exact (contains_eq_true_iff (sources.map norm) x).mpr hx
        refine List.mem_map.mpr ⟨e, List.mem_filter.mpr ⟨he, hpe⟩, ?_⟩
        rw [heq, hns]
    have hperm := (List.perm_ext_iff_of_nodup hLnd hnd).mpr hmem
    have hlen := hperm.length_eq
    rw [List.length_map, List.length_map] at hlen
    rw [List.countP_eq_length_filter]
    exact hlen

/-- C4 counterexample: the claim's "purging a set of N source paths all
present in the cache removes exactly N entries and returns N" fails when
two distinct requested paths resolve to the same canonical form. With
`path.resolve` mapping the relative "./a" and the absolute "/a" to the
same canonical "/a", both paths are present in the cache (each matches a
resident entry), yet the purge removes 1 entry and returns 1, not 2. -/
theorem clearPluginModuleCache_count_counterexample :
    (["./a", "/a"].all (fun s =>
        [("/a", 1)].any (fun e : Path × Nat =>
          (if e.1 = "./a" then "/a" else e.1) == (if s = "./a" then "/a" else s))) = true) ∧
    ("./a" : Path) ≠ "/a" ∧
    clearPluginModuleCache (fun s => if s = "./a" then "/a" else s)
        ["./a", "/a"] [("/a", 1)] = (1, []) ∧
    (1 : Nat) ≠ 2 := by
  refine ⟨by decide, by decide, by decide, by decide⟩

/-- C4 witness: at a concrete cache with canonical distinct keys and one
requested path that is resident, the purge removes exactly one entry. -/
theorem clearPluginModuleCache_purges_matching_witness :
    ((["/a"].map (fun s : Path => s)).Nodup) ∧
    (([("/a", 1), ("/b", 2)].map (fun e : Path × Nat => e.1)).Nodup) ∧
    (["/a"].all (fun s => [("/a", 1), ("/b", 2)].any
        (fun e : Path × Nat => e.1 == s)) = true) ∧
    (clearPluginModuleCache (fun s => s) ["/a"] [("/a", 1), ("/b", 2)]).1 = ["/a"].length :=
  ⟨by decide, by decide, by decide,
    (clearPluginModuleCache_purges_matching
      (fun s => s) ["/a"] [("/a", 1), ("/b", 2)]).2.2.2.2 (by decide) (by decide) (by decide)⟩

/-! ## Computation lemmas for the two reload entry points -/

theorem faultAt_none (env : Env) (h : env.fail = none) (s : ReloadStep) :
    faultAt env s = none := by
  simp [faultAt, h]

/-- Purging an empty source list removes nothing and returns 0. -/
theorem clearPluginModuleCache_nil_sources (norm : Path → Path) (cache : List (Path × Nat)) :
    clearPluginModuleCache norm [] cache = (0, cache) := by
  have h1 : cache.countP
      (fun e => ((([] : List Path)).map norm).contains (norm e.1)) = 0 := by
    rw [List.countP_eq_zero]
    intro a _ hc
    exact Bool.noConfusion hc
  have h2 : cache.filter
      (fun e => !((([] : List Path)).map norm).contains (norm e.1)) = cache := by
    rw [List.filter_eq_self]
    intro a _
    rfl
  exact Prod.ext h1 h2

/-- Full computation of a fault-free `reloadPlugins` run: the success
result and the final world, with the six phase events in order. -/
theorem reloadPlugins_success_eq (env : Env) (options : ReloadPluginsOptions) (w : World)
    (h : env.fail = none) :
    reloadPlugins env options w =
      ({ ok := true
         registry := some { ref := w.freshCounter, plugins := env.loadPlugins,
                            hooks := env.loadHooks }
         pluginCount := some ((env.loadPlugins.filter
           (fun p => p.status == PluginStatus.loaded)).length)
         hookCount := some env.loadHooks.length
         error := none
         durationMs := env.tEnd - env.tStart },
       { w with
           activeRegistry := some { ref := w.freshCounter, plugins := env.loadPlugins,
                                    hooks := env.loadHooks }
           moduleCache := cacheLoadAll env.norm (env.loadPlugins.map (fun q => q.source))
             (clearPluginModuleCache env.norm
               ((env.discover options.workspaceDir).map (fun c => c.rootDir)) w.moduleCache).2
           loaderCache := none
           commands := []
           hookRunnerReady := false
           freshCounter := w.freshCounter + 1
           events := w.events ++
             [Event.discovered options.workspaceDir
                ((env.discover options.workspaceDir).map (fun c => c.rootDir)),
              Event.clearedCaches ((env.discover options.workspaceDir).map (fun c => c.rootDir))
                (clearPluginModuleCache env.norm
                  ((env.discover options.workspaceDir).map (fun c => c.rootDir)) w.moduleCache).1,
              Event.clearedCommands,
              Event.resetHookRunner,
              Event.loaded { config := options.config
                             workspaceDir := some options.workspaceDir
                             logger := some (options.logger.getD subsystemLogger)
                             coreGatewayHandlers := options.coreGatewayHandlers
                             cache := false } w.freshCounter,
              Event.published w.freshCounter] }) := by
  simp only [reloadPlugins, discoverOpenClawPlugins, clearPluginCaches, clearPluginCommands,
    resetGlobalHookRunner, loadOpenClawPlugins, faultAt_none env h, List.append_assoc,
    List.cons_append, List.nil_append]

/-- Full computation of a fault-free `reloadOpenClawPlugins` run. -/
theorem reloadOpenClawPlugins_success_eq (env : Env) (params : ReloadOpenClawParams)
    (w : World) (h : env.fail = none) :
    reloadOpenClawPlugins env params w =
      Except.ok
        ({ ref := w.freshCounter, plugins := env.loadPlugins, hooks := env.loadHooks },
         { w with
             activeRegistry := some { ref := w.freshCounter, plugins := env.loadPlugins,
                                      hooks := env.loadHooks }
             moduleCache := cacheLoadAll env.norm (env.loadPlugins.map (fun q => q.source))
               (clearPluginModuleCache env.norm
                 ((w.activeRegistry.map (fun r => r.plugins.map (fun q => q.source))).getD [])
                 w.moduleCache).2
             loaderCache := none
             freshCounter := w.freshCounter + 1
             events := w.events ++
               [Event.clearedModuleCache
                  ((w.activeRegistry.map (fun r => r.plugins.map (fun q => q.source))).getD [])
                  (clearPluginModuleCache env.norm
                    ((w.activeRegistry.map (fun r => r.plugins.map (fun q => q.source))).getD [])
                    w.moduleCache).1,
                Event.clearedLoaderCache,
                Event.loaded { config := params.config
                               workspaceDir := params.workspaceDir
                               logger := params.logger
                               coreGatewayHandlers := params.coreGatewayHandlers
                               cache := false } w.freshCounter,
                Event.published w.freshCounter] }) := by
  simp only [reloadOpenClawPlugins, getActivePluginRegistry, clearPluginLoaderCache,
    loadOpenClawPlugins, faultAt_none env h, List.append_assoc, List.cons_append,
    List.nil_append]

/-- Computation of a `reloadPlugins` run whose injected fault throws at
any phase: the catch block's failure result, and the Active Registry
Singleton left exactly as it was. -/
theorem reloadPlugins_failure_facts (env : Env) (options : ReloadPluginsOptions) (w : World)
    (s : ReloadStep) (m : String) (h : env.fail = some (s, m)) :
    (reloadPlugins env options w).1 = reloadFailure env m ∧
    (reloadPlugins env options w).2.activeRegistry = w.activeRegistry := by
  cases s <;>
    simp [reloadPlugins, discoverOpenClawPlugins, clearPluginCaches, clearPluginCommands,
      resetGlobalHookRunner, loadOpenClawPlugins, faultAt, h]

/-- A load-phase fault propagates out of `reloadOpenClawPlugins` uncaught. -/
theorem reloadOpenClawPlugins_load_fault (env : Env) (params : ReloadOpenClawParams)
    (w : World) (m : String) (h : env.fail = some (ReloadStep.load, m)) :
    reloadOpenClawPlugins env params w = Except.error m := by
  simp [reloadOpenClawPlugins, getActivePluginRegistry, clearPluginLoaderCache,
    loadOpenClawPlugins, faultAt, h]

/-! ## Concrete environments and worlds used by witnesses and counterexamples -/

/-- A fault-free environment: one workspace plugin candidate whose load
pass yields one loaded plugin and one hook. -/
def envDemo : Env :=
  { norm := fun s => s
    discover := fun _ => [{ rootDir := "/ws/p", manifestPath := "/ws/p/openclaw.plugin.json" }]
    loadPlugins := [{ id := "p", source := "/ws/p/index.js", status := PluginStatus.loaded }]
    loadHooks := ["onMessage"]
    fail := none
    tStart := 0
    tEnd := 5 }

/-- An environment whose load phase throws an error with message "boom". -/
def envBoom : Env :=
  { envDemo with fail := some (ReloadStep.load, "boom") }

/-- An environment whose load phase throws an error whose message is the
empty string, as `new Error("")` or a thrown empty string produces. -/
def envEmptyError : Env :=
  { envDemo with fail := some (ReloadStep.load, "") }

/-- Options for `reloadPlugins` used at concrete inputs. -/
def optsDemo : ReloadPluginsOptions :=
  { config := { tag := 1 }, workspaceDir := "/ws", coreGatewayHandlers := none, logger := none }

/-- Parameters for `reloadOpenClawPlugins` used at concrete inputs. -/
def paramsDemo : ReloadOpenClawParams :=
  { config := { tag := 1 }, workspaceDir := some "/ws", logger := none,
    coreGatewayHandlers := none }

/-- The initial world: nothing active, empty caches, empty log. -/
def w0 : World :=
  { activeRegistry := none, moduleCache := [], loaderCache := none, commands := [],
    hookRunnerReady := true, freshCounter := 0, events := [] }

/-- A previously loaded registry with allocation index 0. -/
def regPrev : Registry :=
  { ref := 0, plugins := [], hooks := [] }

/-- A world in which `regPrev` is the live registry. -/
def wActive : World :=
  { w0 with activeRegistry := some regPrev, freshCounter := 1 }

/-! ## C1: failure result and rollback of the Active Registry Singleton -/

/-- C1 (amended): when any reload phase throws with message `m`, the call
returns `ok:false` with the error string equal to `m` (hence non-empty
whenever the thrown message is non-empty) and a durationMs, and the
Active Registry Singleton after the call still equals its pre-call value
(no partial update). The original claim's unconditional "non-empty error
string" fails for a thrown error whose message is empty. -/
theorem reloadPlugins_failure_preserves_active_registry
    (env : Env) (options : ReloadPluginsOptions) (w : World)
    (s : ReloadStep) (m : String) (h : env.fail = some (s, m)) :
    (reloadPlugins env options w).1.ok = false ∧
    (reloadPlugins env options w).1.error = some m ∧
    (reloadPlugins env options w).1.registry = none ∧
    (reloadPlugins env options w).1.durationMs = env.tEnd - env.tStart ∧
    (reloadPlugins env options w).2.activeRegistry = w.activeRegistry ∧
    (m ≠ "" → (reloadPlugins env options w).1.error ≠ some "") := by
  obtain ⟨h1, h2⟩ := reloadPlugins_failure_facts env options w s m h
  rw [h1]
  refine ⟨rfl, rfl, rfl, rfl, h2, ?_⟩
  intro hm hc
  exact hm (Option.some.inj hc)

/-- C1 counterexample: a load-phase error whose message is the empty
string yields `ok:false` with an empty error string, refuting the
claim's "non-empty error string" as stated. -/
theorem reloadPlugins_error_string_can_be_empty :
    (reloadPlugins envEmptyError optsDemo w0).1.ok = false ∧
    (reloadPlugins envEmptyError optsDemo w0).1.error = some "" ∧
    (((reloadPlugins envEmptyError optsDemo w0).1.error.getD "x").length = 0) := by
  refine ⟨by decide, by decide, by decide⟩

/-- C1 witness: a load-phase error with message "boom" at a world with a
live registry leaves the Active Registry Singleton untouched. -/
theorem reloadPlugins_failure_preserves_active_registry_witness :
    (envBoom.fail = some (ReloadStep.load, "boom")) ∧
    (reloadPlugins envBoom optsDemo wActive).1.ok = false ∧
    (reloadPlugins envBoom optsDemo wActive).2.activeRegistry = wActive.activeRegistry :=
  ⟨rfl,
   (reloadPlugins_failure_preserves_active_registry envBoom optsDemo wActive
     ReloadStep.load "boom" rfl).1,
   (reloadPlugins_failure_preserves_active_registry envBoom optsDemo wActive
     ReloadStep.load "boom" rfl).2.2.2.2.1⟩

/-! ## C2: reload success invariant -/

/-- C2: for every workspace directory (including a nonexistent one, for
which the modelled discovery returns an empty candidate list) and every
fault-free environment, `reloadPlugins` returns `ok:true`, a
non-negative durationMs (the clock hypothesis is the monotonicity of
performance.now), and numeric pluginCount and hookCount fields. -/
theorem reloadPlugins_success_invariant (env : Env) (options : ReloadPluginsOptions)
    (w : World) (h : env.fail = none) (hclock : env.tStart ≤ env.tEnd) :
    (reloadPlugins env options w).1.ok = true ∧
    0 ≤ (reloadPlugins env options w).1.durationMs ∧
    (reloadPlugins env options w).1.pluginCount.isSome = true ∧
    (reloadPlugins env options w).1.hookCount.isSome = true := by
  rw [reloadPlugins_success_eq env options w h]
  refine ⟨rfl, ?_, rfl, rfl⟩
  show (0 : Int) ≤ env.tEnd - env.tStart
  omega

/-- C2 witness: the invariant at a concrete fault-free environment. -/
theorem reloadPlugins_success_invariant_witness :
    (envDemo.fail = none) ∧ (envDemo.tStart ≤ envDemo.tEnd) ∧
    (reloadPlugins envDemo optsDemo w0).1.ok = true :=
  ⟨rfl, by decide,
   (reloadPlugins_success_invariant envDemo optsDemo w0 rfl (by decide)).1⟩

/-! ## C3: atomic publication of the fresh registry -/

/-- C3: after a successful reload the Active Registry Singleton equals
the `registry` field of the result, differs from its pre-call value
(given the allocation well-formedness of the pre-call world), and the
run's event suffix contains exactly one atomic publish. -/
theorem reloadPlugins_publishes_fresh_registry (env : Env)
    (options : ReloadPluginsOptions) (w : World)
    (h : env.fail = none) (hwf : wfActive w = true) :
    (reloadPlugins env options w).2.activeRegistry = (reloadPlugins env options w).1.registry ∧
    (reloadPlugins env options w).1.registry.isSome = true ∧
    (reloadPlugins env options w).2.activeRegistry ≠ w.activeRegistry ∧
    ((reloadPlugins env options w).2.events.drop w.events.length).countP isPublishEvent = 1 := by
  rw [reloadPlugins_success_eq env options w h]
  refine ⟨rfl, rfl, ?_, ?_⟩
  · cases hw : w.activeRegistry with
    | none => simp
    | some r =>
      have hlt : r.ref < w.freshCounter := by
        unfold wfActive at hwf
        rw [hw] at hwf
        exact of_decide_eq_true hwf
      intro hc
      have heq := Option.some.inj hc
      have href : w.freshCounter = r.ref := congrArg Registry.ref heq
      omega
  · dsimp only
    rw [List.drop_left]
    simp [isPublishEvent]

/-- C3 witness: publication at a concrete fault-free environment over a
world whose live registry was allocated earlier. -/
theorem reloadPlugins_publishes_fresh_registry_witness :
    (envDemo.fail = none) ∧ (wfActive wActive = true) ∧
    (reloadPlugins envDemo optsDemo wActive).2.activeRegistry =
      (reloadPlugins envDemo optsDemo wActive).1.registry ∧
    (reloadPlugins envDemo optsDemo wActive).2.activeRegistry ≠ wActive.activeRegistry :=
  ⟨rfl, by decide,
   (reloadPlugins_publishes_fresh_registry envDemo optsDemo wActive rfl (by decide)).1,
   (reloadPlugins_publishes_fresh_registry envDemo optsDemo wActive rfl (by decide)).2.2.1⟩

/-! ## C5: result counts match the returned registry -/

/-- C5: on a successful reload, `pluginCount` is the number of plugins in
the returned registry whose status is loaded, and `hookCount` is the
length of the returned registry's hook sequence. -/
theorem reloadPlugins_counts_match_registry (env : Env) (options : ReloadPluginsOptions)
    (w : World) (h : env.fail = none) :
    (reloadPlugins env options w).1.pluginCount =
      ((reloadPlugins env options w).1.registry).map
        (fun reg => (reg.plugins.filter (fun p => p.status == PluginStatus.loaded)).length) ∧
    (reloadPlugins env options w).1.hookCount =
      ((reloadPlugins env options w).1.registry).map (fun reg => reg.hooks.length) ∧
    (reloadPlugins env options w).1.registry.isSome = true := by
  rw [reloadPlugins_success_eq env options w h]
  exact ⟨rfl, rfl, rfl⟩

/-- C5 witness: the counts at a concrete fault-free environment. -/
theorem reloadPlugins_counts_match_registry_witness :
    (envDemo.fail = none) ∧
    (reloadPlugins envDemo optsDemo w0).1.pluginCount =
      ((reloadPlugins envDemo optsDemo w0).1.registry).map
        (fun reg => (reg.plugins.filter (fun p => p.status == PluginStatus.loaded)).length) :=
  ⟨rfl, (reloadPlugins_counts_match_registry envDemo optsDemo w0 rfl).1⟩

/-! ## C6: fixed phase order of a reload -/

/-- C6: every fault-free `reloadPlugins` run appends exactly the phase
events discovery, cache clearing (with the discovered candidate root
paths), command-registry clearing, hook-runner reset, and the fresh load
— in that order — and the load is invoked with `cache:false` and the
supplied configuration, workspace directory, resolved logger and core
gateway handlers. -/
theorem reloadPlugins_phase_order (env : Env) (options : ReloadPluginsOptions)
    (w : World) (h : env.fail = none) :
    (reloadPlugins env options w).2.events =
      w.events ++
        [Event.discovered options.workspaceDir
           ((env.discover options.workspaceDir).map (fun c => c.rootDir)),
         Event.clearedCaches ((env.discover options.workspaceDir).map (fun c => c.rootDir))
           (clearPluginModuleCache env.norm
             ((env.discover options.workspaceDir).map (fun c => c.rootDir)) w.moduleCache).1,
         Event.clearedCommands,
         Event.resetHookRunner,
         Event.loaded { config := options.config
                        workspaceDir := some options.workspaceDir
                        logger := some (options.logger.getD subsystemLogger)
                        coreGatewayHandlers := options.coreGatewayHandlers
                        cache := false } w.freshCounter,
         Event.published w.freshCounter] := by
  rw [reloadPlugins_success_eq env options w h]

/-- C6 witness: the phase order at a concrete fault-free environment. -/
theorem reloadPlugins_phase_order_witness :
    (envDemo.fail = none) ∧
    (reloadPlugins envDemo optsDemo w0).2.events =
      [Event.discovered "/ws" ["/ws/p"],
       Event.clearedCaches ["/ws/p"] 0,
       Event.clearedCommands,
       Event.resetHookRunner,
       Event.loaded { config := { tag := 1 }
                      workspaceDir := some "/ws"
                      logger := some subsystemLogger
                      coreGatewayHandlers := none
                      cache := false } 0,
       Event.published 0] :=
  ⟨rfl, reloadPlugins_phase_order envDemo optsDemo w0 rfl⟩

/-! ## C7: what the cache-clearing step actually purges -/

/-- C7 (amended): the cache-clearing step purges exactly those module
cache entries whose canonical key equals a canonical requested path —
the discovered candidate root directories for `reloadPlugins`, and the
previous Active Registry's recorded plugin source files for
`reloadOpenClawPlugins`; the candidate root directories are not in
general the files the fresh load re-imports. -/
theorem reload_cache_clearing_purges_requested_paths (env : Env)
    (options : ReloadPluginsOptions) (params : ReloadOpenClawParams)
    (w : World) (rPrev : Registry)
    (h : env.fail = none) (hact : w.activeRegistry = some rPrev) :
    ((reloadPlugins env options w).2.moduleCache =
      cacheLoadAll env.norm (env.loadPlugins.map (fun q => q.source))
        (clearPluginModuleCache env.norm
          ((env.discover options.workspaceDir).map (fun c => c.rootDir)) w.moduleCache).2) ∧
    (Event.clearedCaches ((env.discover options.workspaceDir).map (fun c => c.rootDir))
        (clearPluginModuleCache env.norm
          ((env.discover options.workspaceDir).map (fun c => c.rootDir)) w.moduleCache).1
      ∈ (reloadPlugins env options w).2.events) ∧
    ((okWorld (reloadOpenClawPlugins env params w)).map World.moduleCache =
      some (cacheLoadAll env.norm (env.loadPlugins.map (fun q => q.source))
        (clearPluginModuleCache env.norm (rPrev.plugins.map (fun q => q.source))
          w.moduleCache).2)) ∧
    (Event.clearedModuleCache (rPrev.plugins.map (fun q => q.source))
        (clearPluginModuleCache env.norm (rPrev.plugins.map (fun q => q.source))
          w.moduleCache).1
      ∈ ((okWorld (reloadOpenClawPlugins env params w)).getD w).events) := by
  rw [reloadPlugins_success_eq env options w h,
    reloadOpenClawPlugins_success_eq env params w h, hact]
  refine ⟨rfl, ?_, rfl, ?_⟩
  · dsimp only
    simp [List.mem_append]
  · dsimp only [okWorld]
    simp [List.mem_append]

/-- An environment whose single candidate root dir contains the plugin
source file the load pass re-imports. -/
def envStale : Env :=
  { envDemo with loadHooks := [], tEnd := 2 }

/-- A world whose module cache already holds the plugin source file, with
module object identity 7. -/
def wStale : World :=
  { w0 with moduleCache := [("/ws/p/index.js", 7)] }

/-- C7 counterexample: at a concrete reload, the file the fresh load
re-imports ("/ws/p/index.js") is resident in the module cache, yet the
cache-clearing step — which receives the candidate root directory
"/ws/p" — purges 0 entries, and after the whole reload the cache still
holds the stale module object 7 for that file. The claim's "purges
exactly the files that will be re-imported" is false at this input. -/
theorem reload_rootDir_purge_misses_reimported_file :
    (envStale.loadPlugins.map (fun q => q.source) = ["/ws/p/index.js"]) ∧
    (("/ws/p/index.js", 7) ∈ wStale.moduleCache) ∧
    ((reloadPlugins envStale optsDemo wStale).1.ok = true) ∧
    (Event.clearedCaches ["/ws/p"] 0 ∈ (reloadPlugins envStale optsDemo wStale).2.events) ∧
    ((reloadPlugins envStale optsDemo wStale).2.moduleCache = [("/ws/p/index.js", 7)]) := by
  refine ⟨by decide, by decide, by decide, by decide, by decide⟩

/-- C7 witness: at a concrete environment with a live previous registry,
the clearing step of `reloadPlugins` records exactly the candidate root
paths and the number of purged entries. -/
theorem reload_cache_clearing_purges_requested_paths_witness :
    (envDemo.fail = none) ∧ (wActive.activeRegistry = some regPrev) ∧
    (Event.clearedCaches ["/ws/p"] 0 ∈ (reloadPlugins envDemo optsDemo wActive).2.events) :=
  ⟨rfl, rfl,
   (reload_cache_clearing_purges_requested_paths envDemo optsDemo paramsDemo wActive regPrev
     rfl rfl).2.1⟩

/-! ## C8: fresh-reference guarantee -/

/-- C8: every fault-free reload — through either entry point — returns a
registry reference distinct from any registry allocated by a prior load
(any registry whose allocation index is below the current counter), even
when the load outcome's content is unchanged. -/
theorem reload_returns_fresh_reference (env : Env) (options : ReloadPluginsOptions)
    (params : ReloadOpenClawParams) (w : World) (rPrior : Registry)
    (h : env.fail = none) (hprior : rPrior.ref < w.freshCounter) :
    (reloadPlugins env options w).1.registry ≠ some rPrior ∧
    (reloadPlugins env options w).1.registry.isSome = true ∧
    okRegistry (reloadOpenClawPlugins env params w) ≠ some rPrior ∧
    (okRegistry (reloadOpenClawPlugins env params w)).isSome = true := by
  rw [reloadPlugins_success_eq env options w h,
    reloadOpenClawPlugins_success_eq env params w h]
  refine ⟨?_, rfl, ?_, rfl⟩
  · intro hc
    have heq := Option.some.inj hc
    have href : w.freshCounter = rPrior.ref := congrArg Registry.ref heq
    omega
  · intro hc
    have heq := Option.some.inj hc
    have href : w.freshCounter = rPrior.ref := congrArg Registry.ref heq
    omega

/-- C8 witness: at a concrete fault-free environment, the fresh registry
differs from the registry `regPrev` the previous load produced. -/
theorem reload_returns_fresh_reference_witness :
    (envDemo.fail = none) ∧ (regPrev.ref < wActive.freshCounter) ∧
    (reloadPlugins envDemo optsDemo wActive).1.registry ≠ some regPrev ∧
    okRegistry (reloadOpenClawPlugins envDemo paramsDemo wActive) ≠ some regPrev :=
  ⟨rfl, by decide,
   (reload_returns_fresh_reference envDemo optsDemo paramsDemo wActive regPrev rfl
     (by decide)).1,
   (reload_returns_fresh_reference envDemo optsDemo paramsDemo wActive regPrev rfl
     (by decide)).2.2.1⟩

/-! ## C9: propagation policy of the two entry points -/

/-- C9 (amended): `reloadPlugins` always terminates in a typed result —
`ok:true`, or `ok:false` with an error string — for every environment,
faulty or not; `reloadOpenClawPlugins`, which has no try/catch, instead
propagates a load-phase error to its caller. -/
theorem reload_error_propagation_policy (env env2 : Env) (options : ReloadPluginsOptions)
    (params : ReloadOpenClawParams) (w w2 : World) (m : String)
    (h : env.fail = some (ReloadStep.load, m)) :
    ((reloadPlugins env2 options w2).1.ok = true ∨
      ((reloadPlugins env2 options w2).1.ok = false ∧
        (reloadPlugins env2 options w2).1.error.isSome = true)) ∧
    reloadOpenClawPlugins env params w = Except.error m := by
  refine ⟨?_, reloadOpenClawPlugins_load_fault env params w m h⟩
  cases h2 : env2.fail with
  | none =>
    left
    rw [reloadPlugins_success_eq env2 options w2 h2]
  | some sm =>
    right
    obtain ⟨s, m'⟩ := sm
    obtain ⟨h1, _⟩ := reloadPlugins_failure_facts env2 options w2 s m' h2
    rw [h1]
    exact ⟨rfl, rfl⟩

/-- C9 counterexample: at a concrete input whose load phase throws
"boom", `reloadOpenClawPlugins` terminates by propagating the thrown
error rather than returning a typed result, refuting the claim that
every public reload entry point returns a typed result. -/
theorem reloadOpenClawPlugins_propagates_load_error :
    reloadOpenClawPlugins envBoom paramsDemo w0 = Except.error "boom" ∧
    okRegistry (reloadOpenClawPlugins envBoom paramsDemo w0) = none :=
  ⟨rfl, rfl⟩

/-- C9 witness: the propagation policy at concrete inputs. -/
theorem reload_error_propagation_policy_witness :
    (envBoom.fail = some (ReloadStep.load, "boom")) ∧
    ((reloadPlugins envDemo optsDemo w0).1.ok = true ∨
      ((reloadPlugins envDemo optsDemo w0).1.ok = false ∧
        (reloadPlugins envDemo optsDemo w0).1.error.isSome = true)) ∧
    reloadOpenClawPlugins envBoom paramsDemo w0 = Except.error "boom" :=
  ⟨rfl,
   (reload_error_propagation_policy envBoom envDemo optsDemo paramsDemo w0 w0 "boom" rfl).1,
   (reload_error_propagation_policy envBoom envDemo optsDemo paramsDemo w0 w0 "boom" rfl).2⟩

/-! ## C10: variant reload with no active registry -/

/-- C10: when no Active Registry exists, `reloadOpenClawPlugins` passes
an empty source list to the Module Cache Buster (which purges zero
entries and leaves the module cache untouched before the load's own
imports), still clears the loader cache, performs a fresh load with
`cache:false` and the supplied parameters, and returns (and publishes)
the newly loaded registry. -/
theorem reloadOpenClawPlugins_no_active_registry (env : Env)
    (params : ReloadOpenClawParams) (w : World)
    (h : env.fail = none) (hact : w.activeRegistry = none) :
    (Event.clearedModuleCache [] 0 ∈
      ((okWorld (reloadOpenClawPlugins env params w)).getD w).events) ∧
    ((okWorld (reloadOpenClawPlugins env params w)).map World.moduleCache =
      some (cacheLoadAll env.norm (env.loadPlugins.map (fun q => q.source)) w.moduleCache)) ∧
    ((okWorld (reloadOpenClawPlugins env params w)).map World.loaderCache = some none) ∧
    (Event.loaded { config := params.config
                    workspaceDir := params.workspaceDir
                    logger := params.logger
                    coreGatewayHandlers := params.coreGatewayHandlers
                    cache := false } w.freshCounter ∈
      ((okWorld (reloadOpenClawPlugins env params w)).getD w).events) ∧
    (okRegistry (reloadOpenClawPlugins env params w) =
      some { ref := w.freshCounter, plugins := env.loadPlugins, hooks := env.loadHooks }) ∧
    ((okWorld (reloadOpenClawPlugins env params w)).map World.activeRegistry =
      some (okRegistry (reloadOpenClawPlugins env params w))) := by
  have he := reloadOpenClawPlugins_success_eq env params w h
  rw [hact] at he
  rw [he]
  refine ⟨?_, ?_, rfl, ?_, rfl, rfl⟩
  · simp [okWorld, List.mem_append, clearPluginModuleCache_nil_sources]
  · simp [okWorld, clearPluginModuleCache_nil_sources]
  · simp [okWorld, List.mem_append]

/-- C10 witness: the no-active-registry behaviour at a concrete input. -/
theorem reloadOpenClawPlugins_no_active_registry_witness :
    (envDemo.fail = none) ∧ (w0.activeRegistry = none) ∧
    okRegistry (reloadOpenClawPlugins envDemo paramsDemo w0) =
      some { ref := 0, plugins := envDemo.loadPlugins, hooks := envDemo.loadHooks } :=
  ⟨rfl, rfl,
   (reloadOpenClawPlugins_no_active_registry envDemo paramsDemo w0 rfl rfl).2.2.2.2.1⟩

end OpenClawReload
